import Mathlib

/-!
Shallow embedding of the wallet-kit connection orchestrator
(`src/packages/kit/src/components/WalletProvider.tsx`).

The React component owns one piece of session state (`walletAdapter`,
`status`) and exposes async operations (`connect`, `disconnect`, `select`)
plus guarded facade operations (`getAccounts`, `signMessage`,
`signAndExecuteTransaction`, `executeMoveCall`, `getPublicKey`).  Each
operation is modelled as a pure function from the current `Session` to an
`OpResult`: the value or error produced, the session state after the
operation has run to completion, and the trace of calls made into the
adapter.  Adapters are opaque capability-bearing objects; their behaviour
(what `adapter.connect` resolves or rejects with, etc.) is modelled as data
carried by the adapter record.
-/

namespace WalletKit

/-- `ConnectionStatus` enum from `types/wallet`. -/
inductive ConnectionStatus where
  | DISCONNECTED
  | CONNECTING
  | CONNECTED
deriving DecidableEq, Repr

/-- `WalletAccount`: `{ address, publicKey }`; bytes are modelled as `List Nat`. -/
structure WalletAccount where
  address : String
  publicKey : List Nat
deriving DecidableEq, Repr

/-- Modelled from the spec (§7): the error kinds surfaced to callers.  In the
source every kit-origin failure is a `KitError` with a distinguishing message;
`walletNotAvailable` carries the requested name and the available-name list
that the source interpolates into the message.  `adapterError` is an
adapter-origin rejection carried unmodified (payload is an opaque code).
`typeError` models a JavaScript `TypeError` raised by an unguarded property
access on an `undefined` value — it is not a `KitError`. -/
inductive KitErr where
  | invalidArgument
  | notConnected
  | noActiveAccount
  | walletNotAvailable (requested : String) (available : List String)
  | adapterError (e : Nat)
  | typeError
deriving DecidableEq, Repr

/-- Modelled from the spec: `FeatureName.STANDARD__DISCONNECT` from
`wallet/wallet-adapter` (not under `src/`), the feature id of the optional
disconnect capability. -/
def FeatureName.STANDARD__DISCONNECT : String := "standard:disconnect"

/-- `IWalletAdapter`: opaque capability-bearing object.  Identity and data
fields come from the adapter contract (`name`, `icon`, `accounts`,
`hasFeature`); the remaining fields encode the outcome of its async calls so
that the orchestrator can be modelled as a pure function: `connectResult` is
what `adapter.connect` resolves (`.ok`) or rejects (`.error`) with,
`disconnectResult` likewise for `adapter.disconnect`, `signMessageFn` and
`signAndExecuteFn` give the outcome of the signing calls as functions of
their inputs.  Results and rejection reasons are opaque (`Nat`). -/
structure IWalletAdapter where
  name : String
  icon : String
  accounts : List WalletAccount
  hasFeature : String → Bool
  connectResult : Except Nat Nat
  disconnectResult : Except Nat Unit
  signMessageFn : WalletAccount → List Nat → Except Nat Nat
  signAndExecuteFn : String → Nat → Except Nat Nat

/-- The session state owned by `WalletProvider`: the `walletAdapter` and
`status` `useState` cells. -/
structure Session where
  walletAdapter : Option IWalletAdapter
  status : ConnectionStatus

/-- Initial session state: `useState<IWalletAdapter|undefined>()` and
`useState(ConnectionStatus.DISCONNECTED)`. -/
def initialSession : Session := ⟨none, ConnectionStatus.DISCONNECTED⟩

/-- One observable call into an adapter, for stating "performs no adapter
call" properties.  Signing calls record the adapter name and arguments. -/
inductive AdapterCall where
  | connectCall (adapterName : String)
  | disconnectCall (adapterName : String)
  | signMessageCall (adapterName : String) (account : WalletAccount) (message : List Nat)
  | signAndExecuteCall (adapterName : String) (kind : String) (data : Nat)
deriving DecidableEq, Repr

/-- Whether an adapter call is a `connect` call. -/
def AdapterCall.isConnect : AdapterCall → Bool
  | .connectCall _ => true
  | _ => false

/-- Outcome of running one orchestrator operation to completion: the value or
error delivered to the caller, the session state afterwards, and the calls
made into adapters (in order). -/
structure OpResult (α : Type) where
  result : Except KitErr α
  session : Session
  calls : List AdapterCall

/-- `isCallable(walletAdapter, status) := walletAdapter && status === CONNECTED`. -/
def isCallable (walletAdapter : Option IWalletAdapter) (status : ConnectionStatus) : Bool :=
  walletAdapter.isSome && status == ConnectionStatus.CONNECTED

/-- The memoized `account`: `undefined` unless callable, else
`walletAdapter.accounts[0]` (first account by default). -/
def account (s : Session) : Option WalletAccount :=
  match s.walletAdapter, s.status with
  | some walletAdapter, ConnectionStatus.CONNECTED => walletAdapter.accounts.head?
  | _, _ => none

/-- `connect(adapter, opts?)`.  The missing-adapter guard (`if (!adapter)
throw`) is modelled by taking an `Option`; `select` passes
`wallet.adapter as IWalletAdapter`, which may be `undefined`.  On the happy
path: set `CONNECTING`, await `adapter.connect`, then set the adapter and
`CONNECTED` and return the result; on rejection reset the session and
re-throw the original failure. -/
def connect (s : Session) (adapterOpt : Option IWalletAdapter) : OpResult Nat :=
  match adapterOpt with
  | none => ⟨Except.error KitErr.invalidArgument, s, []⟩
  | some adapter =>
    match adapter.connectResult with
    | Except.ok res =>
      ⟨Except.ok res, ⟨some adapter, ConnectionStatus.CONNECTED⟩,
        [AdapterCall.connectCall adapter.name]⟩
    | Except.error e =>
      ⟨Except.error (KitErr.adapterError e), ⟨none, ConnectionStatus.DISCONNECTED⟩,
        [AdapterCall.connectCall adapter.name]⟩

/-- `disconnect()`.  `ensureCallable` first (the non-callable branch throws
`NotConnected` before the `try` block, so the session is untouched there);
then, inside `try`, await `adapter.disconnect()` only if the adapter declares
the optional disconnect feature; the `finally` block resets the session on
every exit path, and an adapter-side throw still propagates. -/
def disconnect (s : Session) : OpResult Unit :=
  match s.walletAdapter, s.status with
  | some adapter, ConnectionStatus.CONNECTED =>
    if adapter.hasFeature FeatureName.STANDARD__DISCONNECT then
      match adapter.disconnectResult with
      | Except.ok _ =>
        ⟨Except.ok (), ⟨none, ConnectionStatus.DISCONNECTED⟩,
          [AdapterCall.disconnectCall adapter.name]⟩
      | Except.error e =>
        ⟨Except.error (KitErr.adapterError e), ⟨none, ConnectionStatus.DISCONNECTED⟩,
          [AdapterCall.disconnectCall adapter.name]⟩
    else
      ⟨Except.ok (), ⟨none, ConnectionStatus.DISCONNECTED⟩, []⟩
  | _, _ => ⟨Except.error KitErr.notConnected, s, []⟩

/-- `downloadUrl` metadata of a wallet descriptor. -/
structure DownloadUrl where
  browserExtension : String
deriving DecidableEq, Repr

/-- `IDefaultWallet`: a statically configured wallet entry (UI metadata only). -/
structure IDefaultWallet where
  name : String
  iconUrl : String
  downloadUrl : DownloadUrl

/-- `IWallet`: the descriptor produced by the registry — the configured
metadata plus `adapter` and `installed`. -/
structure IWallet where
  name : String
  iconUrl : String
  downloadUrl : DownloadUrl
  adapter : Option IWalletAdapter
  installed : Bool

/-- Modelled from the spec: `isNonEmptyArray` from `utils` (not under
`src/`) — true iff the list has at least one element. -/
def isNonEmptyArray {α : Type} (l : List α) : Bool := !l.isEmpty

/-- The `configuredWallets` memo of `useAvailableWallets`: each configured
entry, in order, attached to the detected adapter of matching name and marked
installed when one exists. -/
def configuredWallets (defaultWallets : List IDefaultWallet)
    (availableWalletAdapters : List IWalletAdapter) : List IWallet :=
  if !isNonEmptyArray defaultWallets then []
  else if !isNonEmptyArray availableWalletAdapters then
    defaultWallets.map fun item =>
      ⟨item.name, item.iconUrl, item.downloadUrl, none, false⟩
  else
    defaultWallets.map fun item =>
      match availableWalletAdapters.find? (fun walletAdapter => item.name == walletAdapter.name) with
      | some foundAdapter => ⟨item.name, item.iconUrl, item.downloadUrl, some foundAdapter, true⟩
      | none => ⟨item.name, item.iconUrl, item.downloadUrl, none, false⟩

/-- The `detectedWallets` memo: every detected adapter not shown in the
configured list, normalized to an `IWallet` with `installed=true` and an
empty browser-extension download URL. -/
def detectedWallets (defaultWallets : List IDefaultWallet)
    (availableWalletAdapters : List IWalletAdapter) : List IWallet :=
  if !isNonEmptyArray availableWalletAdapters then []
  else
    (availableWalletAdapters.filter fun adapter =>
      (defaultWallets.find? (fun wallet => wallet.name == adapter.name)).isNone).map
      fun adapter => ⟨adapter.name, adapter.icon, ⟨""⟩, some adapter, true⟩

/-- The `allAvailableWallets` memo: configured then detected, filtered to
installed wallets. -/
def allAvailableWallets (defaultWallets : List IDefaultWallet)
    (availableWalletAdapters : List IWalletAdapter) : List IWallet :=
  (configuredWallets defaultWallets availableWalletAdapters ++
    detectedWallets defaultWallets availableWalletAdapters).filter
    fun wallet => wallet.installed

/-- `select(walletName)`, second half: resolve the name against
`allAvailableWallets`; throw `WalletNotAvailable` (carrying the name and the
available-name list) if absent, else `connect` the resolved adapter.
`priorCalls` are the adapter calls already made by the disconnect step. -/
def selectResolve (avail : List IWallet) (s : Session) (walletName : String)
    (priorCalls : List AdapterCall) : OpResult Unit :=
  match avail.find? (fun wallet => wallet.name == walletName) with
  | none =>
    ⟨Except.error (KitErr.walletNotAvailable walletName (avail.map fun wallet => wallet.name)),
      s, priorCalls⟩
  | some wallet =>
    let r := connect s wallet.adapter
    ⟨r.result.map fun _ => (), r.session, priorCalls ++ r.calls⟩

/-- `select(walletName)`: if the session is callable and the name equals the
current adapter's name this is a no-op; if callable with a different name,
first `await disconnect()` (propagating its failure); then resolve and
connect via `selectResolve`. -/
def select (avail : List IWallet) (s : Session) (walletName : String) : OpResult Unit :=
  match s.walletAdapter, s.status with
  | some adapter, ConnectionStatus.CONNECTED =>
    if walletName == adapter.name then ⟨Except.ok (), s, []⟩
    else
      let d := disconnect s
      match d.result with
      | Except.error e => ⟨Except.error e, d.session, d.calls⟩
      | Except.ok _ => selectResolve avail d.session walletName d.calls
  | _, _ => selectResolve avail s walletName []

/-- `getAccounts()`: guarded; returns the live `adapter.accounts` (a property
read, not an adapter call). -/
def getAccounts (s : Session) : OpResult (List WalletAccount) :=
  match s.walletAdapter, s.status with
  | some walletAdapter, ConnectionStatus.CONNECTED => ⟨Except.ok walletAdapter.accounts, s, []⟩
  | _, _ => ⟨Except.error KitErr.notConnected, s, []⟩

/-- `signAndExecuteTransaction(transaction)`: guarded; delegates verbatim to
the adapter.  The transaction input is modelled by its `kind` tag and an
opaque `data` payload. -/
def signAndExecuteTransaction (s : Session) (kind : String) (data : Nat) : OpResult Nat :=
  match s.walletAdapter, s.status with
  | some walletAdapter, ConnectionStatus.CONNECTED =>
    match walletAdapter.signAndExecuteFn kind data with
    | Except.ok res =>
      ⟨Except.ok res, s, [AdapterCall.signAndExecuteCall walletAdapter.name kind data]⟩
    | Except.error e =>
      ⟨Except.error (KitErr.adapterError e), s,
        [AdapterCall.signAndExecuteCall walletAdapter.name kind data]⟩
  | _, _ => ⟨Except.error KitErr.notConnected, s, []⟩

/-- `signMessage({message})`: guarded; additionally requires the active
account (`account`, i.e. `adapter.accounts[0]`), failing with
`NoActiveAccount` if absent; else delegates to `adapter.signMessage` with
that account and the given message. -/
def signMessage (s : Session) (message : List Nat) : OpResult Nat :=
  match s.walletAdapter, s.status with
  | some adapter, ConnectionStatus.CONNECTED =>
    match account s with
    | none => ⟨Except.error KitErr.noActiveAccount, s, []⟩
    | some acct =>
      match adapter.signMessageFn acct message with
      | Except.ok sig =>
        ⟨Except.ok sig, s, [AdapterCall.signMessageCall adapter.name acct message]⟩
      | Except.error e =>
        ⟨Except.error (KitErr.adapterError e), s,
          [AdapterCall.signMessageCall adapter.name acct message]⟩
  | _, _ => ⟨Except.error KitErr.notConnected, s, []⟩

/-- `executeMoveCall(data)`: guarded; wraps `data` under the fixed
`kind: 'moveCall'` tag and delegates to `signAndExecuteTransaction`. -/
def executeMoveCall (s : Session) (data : Nat) : OpResult Nat :=
  match s.walletAdapter, s.status with
  | some _, ConnectionStatus.CONNECTED => signAndExecuteTransaction s "moveCall" data
  | _, _ => ⟨Except.error KitErr.notConnected, s, []⟩

/-- `getPublicKey()`: guarded; `(account as WalletAccount).publicKey` — an
UNGUARDED cast-and-access: when `account` is `undefined` this raises a
JavaScript `TypeError` (modelled as `KitErr.typeError`), not a kit error. -/
def getPublicKey (s : Session) : OpResult (List Nat) :=
  match s.walletAdapter, s.status with
  | some _, ConnectionStatus.CONNECTED =>
    match account s with
    | some acct => ⟨Except.ok acct.publicKey, s, []⟩
    | none => ⟨Except.error KitErr.typeError, s, []⟩
  | _, _ => ⟨Except.error KitErr.notConnected, s, []⟩

/-- States reachable from the initial session state via completed `connect`,
`disconnect` and `select` operations. -/
inductive Reachable : Session → Prop where
  | init : Reachable initialSession
  | connectStep {s : Session} (adapterOpt : Option IWalletAdapter) :
      Reachable s → Reachable (connect s adapterOpt).session
  | disconnectStep {s : Session} :
      Reachable s → Reachable (disconnect s).session
  | selectStep {s : Session} (avail : List IWallet) (walletName : String) :
      Reachable s → Reachable (select avail s walletName).session

/-- Spec-side description of the configured-wallet merge, written from the
claim's words (each configured entry, in configured order, attached to the
detected adapter of matching name and marked installed when one exists, else
not installed) with no special-casing of empty inputs.  Compared with
`configuredWallets` in the refinement theorem. -/
def configuredWalletsSpec (defaultWallets : List IDefaultWallet)
    (availableWalletAdapters : List IWalletAdapter) : List IWallet :=
  defaultWallets.map fun item =>
    match availableWalletAdapters.find? (fun walletAdapter => item.name == walletAdapter.name) with
    | some foundAdapter => ⟨item.name, item.iconUrl, item.downloadUrl, some foundAdapter, true⟩
    | none => ⟨item.name, item.iconUrl, item.downloadUrl, none, false⟩

/-- Spec-side description of the detected-wallet list, written from the
claim's words (every detected adapter whose name matches no configured entry,
in detection order, installed, with an empty browser-extension URL), with no
special-casing of empty inputs. -/
def detectedWalletsSpec (defaultWallets : List IDefaultWallet)
    (availableWalletAdapters : List IWalletAdapter) : List IWallet :=
  (availableWalletAdapters.filter fun adapter =>
    (defaultWallets.find? (fun wallet => wallet.name == adapter.name)).isNone).map
    fun adapter => ⟨adapter.name, adapter.icon, ⟨""⟩, some adapter, true⟩

/-- Spec-side `allAvailableWallets`: configured merge then detected leftovers,
filtered to installed entries. -/
def allAvailableWalletsSpec (defaultWallets : List IDefaultWallet)
    (availableWalletAdapters : List IWalletAdapter) : List IWallet :=
  (configuredWalletsSpec defaultWallets availableWalletAdapters ++
    detectedWalletsSpec defaultWallets availableWalletAdapters).filter
    fun wallet => wallet.installed

/-! Concrete fixtures used to instantiate the theorems below on closed
inputs. -/

/-- A sample wallet account. -/
def sampleAccount : WalletAccount := ⟨"0x1", [1, 2, 3]⟩

/-- A well-behaved adapter named "A": one account, declares the optional
disconnect feature, and all of its calls succeed. -/
def adapterA : IWalletAdapter :=
  { name := "A"
    icon := "iconA"
    accounts := [sampleAccount]
    hasFeature := fun f => f == FeatureName.STANDARD__DISCONNECT
    connectResult := Except.ok 0
    disconnectResult := Except.ok ()
    signMessageFn := fun _ _ => Except.ok 7
    signAndExecuteFn := fun _ _ => Except.ok 9 }

/-- An adapter whose `connect` call rejects with reason `42`. -/
def adapterRejecting : IWalletAdapter :=
  { adapterA with name := "R", connectResult := Except.error 42 }

/-- An adapter that declares the disconnect feature but whose `disconnect`
call rejects with reason `7`. -/
def adapterFailingDisconnect : IWalletAdapter :=
  { adapterA with name := "FD", disconnectResult := Except.error 7 }

/-- A connected-looking adapter with an empty accounts list. -/
def adapterNoAccounts : IWalletAdapter :=
  { adapterA with name := "NA", accounts := [] }

/-- An adapter named "unknown" that no longer appears in the available list
(detection is dynamic, so a connected adapter can vanish from it). -/
def phantomAdapter : IWalletAdapter :=
  { adapterA with name := "unknown" }

/-- A configured entry for wallet "A". -/
def dwA : IDefaultWallet := ⟨"A", "iconA", ⟨"https://a.example"⟩⟩

/-- A configured entry for wallet "B". -/
def dwB : IDefaultWallet := ⟨"B", "iconB", ⟨"https://b.example"⟩⟩

/-- C1: for every adapter and every initial session state, if the adapter's
own connect call rejects with `e`, then `connect` leaves the session
`DISCONNECTED` with no adapter, and the error delivered to the caller is the
adapter's original rejection `e`, unwrapped and unmodified. -/
theorem connect_rejection_resets_session (s : Session) (adapter : IWalletAdapter)
    (e : Nat) (h : adapter.connectResult = Except.error e) :
    (connect s (some adapter)).result = Except.error (KitErr.adapterError e) ∧
    (connect s (some adapter)).session = ⟨none, ConnectionStatus.DISCONNECTED⟩ := by
  simp [connect, h]

/-- Witness for C1: connecting `adapterRejecting` from the initial state
fails with its original rejection reason `42` and leaves the session reset. -/
theorem connect_rejection_resets_session_witness :
    (connect initialSession (some adapterRejecting)).result
      = Except.error (KitErr.adapterError 42) ∧
    (connect initialSession (some adapterRejecting)).session
      = ⟨none, ConnectionStatus.DISCONNECTED⟩ :=
  connect_rejection_resets_session initialSession adapterRejecting 42 rfl

/-- C2: for every callable session, `disconnect` resets the session to
`DISCONNECTED` with no adapter on every exit path; it calls into the
adapter's disconnect exactly when the adapter declares the optional
disconnect feature; and when that call throws, the adapter's original
exception still propagates to the caller. -/
theorem disconnect_callable_resets_session (s : Session) (a : IWalletAdapter)
    (hA : s.walletAdapter = some a) (hS : s.status = ConnectionStatus.CONNECTED) :
    (disconnect s).session = ⟨none, ConnectionStatus.DISCONNECTED⟩ ∧
    (disconnect s).calls =
      (if a.hasFeature FeatureName.STANDARD__DISCONNECT then
        [AdapterCall.disconnectCall a.name] else []) ∧
    (∀ e, a.hasFeature FeatureName.STANDARD__DISCONNECT = true →
      a.disconnectResult = Except.error e →
      (disconnect s).result = Except.error (KitErr.adapterError e)) := by
  rcases s with ⟨wa, st⟩
  cases hA
  cases hS
  by_cases hf : a.hasFeature FeatureName.STANDARD__DISCONNECT
  · cases hd : a.disconnectResult with
    | ok u => simp [disconnect, hf, hd]
    | error e => simp [disconnect, hf, hd]
  · simp [disconnect, hf]

/-- Witness for C2: disconnecting from `adapterFailingDisconnect` (whose
disconnect call rejects with `7`) still resets the session, makes exactly the
one disconnect call, and surfaces the original rejection. -/
theorem disconnect_callable_resets_session_witness :
    (disconnect ⟨some adapterFailingDisconnect, ConnectionStatus.CONNECTED⟩).session
      = ⟨none, ConnectionStatus.DISCONNECTED⟩ ∧
    (disconnect ⟨some adapterFailingDisconnect, ConnectionStatus.CONNECTED⟩).calls
      = [AdapterCall.disconnectCall "FD"] ∧
    (disconnect ⟨some adapterFailingDisconnect, ConnectionStatus.CONNECTED⟩).result
      = Except.error (KitErr.adapterError 7) := by
  obtain ⟨h1, h2, h3⟩ :=
    disconnect_callable_resets_session
      ⟨some adapterFailingDisconnect, ConnectionStatus.CONNECTED⟩
      adapterFailingDisconnect rfl rfl
  refine ⟨h1, ?_, h3 7 rfl rfl⟩
  simpa [adapterFailingDisconnect, adapterA] using h2

/-- C6: for every callable session, `select` with the currently connected
adapter's name is a no-op: it succeeds, leaves the session unchanged, and
performs zero adapter calls. -/
theorem select_same_name_noop (avail : List IWallet) (s : Session)
    (a : IWalletAdapter) (walletName : String)
    (hA : s.walletAdapter = some a) (hS : s.status = ConnectionStatus.CONNECTED)
    (hname : walletName = a.name) :
    select avail s walletName = ⟨Except.ok (), s, []⟩ := by
  rcases s with ⟨wa, st⟩
  cases hA
  cases hS
  cases hname
  simp [select]

/-- Witness for C6: re-selecting "A" while connected to `adapterA` changes
nothing and makes no adapter call. -/
theorem select_same_name_noop_witness :
    select [] ⟨some adapterA, ConnectionStatus.CONNECTED⟩ "A"
      = ⟨Except.ok (), ⟨some adapterA, ConnectionStatus.CONNECTED⟩, []⟩ :=
  select_same_name_noop [] ⟨some adapterA, ConnectionStatus.CONNECTED⟩ adapterA "A"
    rfl rfl rfl

/-- C3: for every session in which `isCallable` is false, each guarded
operation — `getAccounts`, `signMessage`, `signAndExecuteTransaction`,
`getPublicKey`, `executeMoveCall`, `disconnect` — fails with the uniform
`NotConnected` error and performs no call into any adapter. -/
theorem guarded_ops_fail_when_not_callable (s : Session)
    (message : List Nat) (kind : String) (data mdata : Nat)
    (h : isCallable s.walletAdapter s.status = false) :
    (getAccounts s).result = Except.error KitErr.notConnected ∧
    (getAccounts s).calls = [] ∧
    (signMessage s message).result = Except.error KitErr.notConnected ∧
    (signMessage s message).calls = [] ∧
    (signAndExecuteTransaction s kind data).result = Except.error KitErr.notConnected ∧
    (signAndExecuteTransaction s kind data).calls = [] ∧
    (getPublicKey s).result = Except.error KitErr.notConnected ∧
    (getPublicKey s).calls = [] ∧
    (executeMoveCall s mdata).result = Except.error KitErr.notConnected ∧
    (executeMoveCall s mdata).calls = [] ∧
    (disconnect s).result = Except.error KitErr.notConnected ∧
    (disconnect s).calls = [] := by
  rcases s with ⟨wa, st⟩
  cases wa with
  | none =>
    cases st <;>
      simp [getAccounts, signMessage, signAndExecuteTransaction, getPublicKey,
        executeMoveCall, disconnect]
  | some a =>
    cases st with
    | CONNECTED => simp [isCallable] at h
    | DISCONNECTED =>
      simp [getAccounts, signMessage, signAndExecuteTransaction, getPublicKey,
        executeMoveCall, disconnect]
    | CONNECTING =>
      simp [getAccounts, signMessage, signAndExecuteTransaction, getPublicKey,
        executeMoveCall, disconnect]

/-- Witness for C3: every guarded operation invoked on the initial
(disconnected) session fails with `NotConnected` and makes no adapter call. -/
theorem guarded_ops_fail_when_not_callable_witness :
    (getAccounts initialSession).result = Except.error KitErr.notConnected ∧
    (getAccounts initialSession).calls = [] ∧
    (signMessage initialSession [5]).result = Except.error KitErr.notConnected ∧
    (signMessage initialSession [5]).calls = [] ∧
    (signAndExecuteTransaction initialSession "moveCall" 3).result
      = Except.error KitErr.notConnected ∧
    (signAndExecuteTransaction initialSession "moveCall" 3).calls = [] ∧
    (getPublicKey initialSession).result = Except.error KitErr.notConnected ∧
    (getPublicKey initialSession).calls = [] ∧
    (executeMoveCall initialSession 3).result = Except.error KitErr.notConnected ∧
    (executeMoveCall initialSession 3).calls = [] ∧
    (disconnect initialSession).result = Except.error KitErr.notConnected ∧
    (disconnect initialSession).calls = [] :=
  guarded_ops_fail_when_not_callable initialSession [5] "moveCall" 3 3 rfl

/-- C8: for every callable session, `signMessage` fails with the distinct
`NoActiveAccount` error (and makes no adapter call) when the adapter's first
account is absent; when an active account exists, it delegates to the
adapter's `signMessage` with that account and the given message, surfacing
the adapter's outcome. -/
theorem signMessage_requires_active_account (s : Session) (a : IWalletAdapter)
    (message : List Nat)
    (hA : s.walletAdapter = some a) (hS : s.status = ConnectionStatus.CONNECTED) :
    ((signMessage s message).result =
      match a.accounts.head? with
      | none => Except.error KitErr.noActiveAccount
      | some acct => (a.signMessageFn acct message).mapError KitErr.adapterError) ∧
    ((signMessage s message).calls =
      match a.accounts.head? with
      | none => []
      | some acct => [AdapterCall.signMessageCall a.name acct message]) := by
  rcases s with ⟨wa, st⟩
  cases hA
  cases hS
  cases hacc : a.accounts.head? with
  | none => simp [signMessage, account, hacc]
  | some acct =>
    cases hsig : a.signMessageFn acct message with
    | ok sig => simp [signMessage, account, hacc, hsig, Except.mapError]
    | error e => simp [signMessage, account, hacc, hsig, Except.mapError]

/-- Witness for C8: connected to `adapterA`, `signMessage` delegates and
returns the adapter's signature; connected to `adapterNoAccounts` (empty
accounts list), it fails with `NoActiveAccount` and makes no adapter call. -/
theorem signMessage_requires_active_account_witness :
    (signMessage ⟨some adapterA, ConnectionStatus.CONNECTED⟩ [5]).result
      = Except.ok 7 ∧
    (signMessage ⟨some adapterA, ConnectionStatus.CONNECTED⟩ [5]).calls
      = [AdapterCall.signMessageCall "A" sampleAccount [5]] ∧
    (signMessage ⟨some adapterNoAccounts, ConnectionStatus.CONNECTED⟩ [5]).result
      = Except.error KitErr.noActiveAccount ∧
    (signMessage ⟨some adapterNoAccounts, ConnectionStatus.CONNECTED⟩ [5]).calls
      = [] := by
  obtain ⟨h1, h2⟩ :=
    signMessage_requires_active_account
      ⟨some adapterA, ConnectionStatus.CONNECTED⟩ adapterA [5] rfl rfl
  obtain ⟨h3, h4⟩ :=
    signMessage_requires_active_account
      ⟨some adapterNoAccounts, ConnectionStatus.CONNECTED⟩ adapterNoAccounts [5] rfl rfl
  refine ⟨?_, ?_, ?_, ?_⟩
  · simpa [adapterA, Except.mapError] using h1
  · simpa [adapterA] using h2
  · simpa [adapterNoAccounts, adapterA] using h3
  · simpa [adapterNoAccounts, adapterA] using h4

/-- C10: for every callable session, `getPublicKey` performs no
active-account check: with an empty accounts list it does not fail with
`NoActiveAccount` but crashes with a `TypeError` from the unguarded
`(account as WalletAccount).publicKey` access, and with at least one account
it resolves to the first account's public key. -/
theorem getPublicKey_no_account_guard (s : Session) (a : IWalletAdapter)
    (hA : s.walletAdapter = some a) (hS : s.status = ConnectionStatus.CONNECTED) :
    ((getPublicKey s).result =
      match a.accounts.head? with
      | none => Except.error KitErr.typeError
      | some acct => Except.ok acct.publicKey) ∧
    (getPublicKey s).result ≠ Except.error KitErr.noActiveAccount := by
  rcases s with ⟨wa, st⟩
  cases hA
  cases hS
  cases hacc : a.accounts.head? with
  | none => simp [getPublicKey, account, hacc]
  | some acct => simp [getPublicKey, account, hacc]

/-- Witness for C10: connected to `adapterNoAccounts`, `getPublicKey` ends in
the modelled `TypeError` (not `NoActiveAccount`); connected to `adapterA`, it
returns the first account's public key. -/
theorem getPublicKey_no_account_guard_witness :
    (getPublicKey ⟨some adapterNoAccounts, ConnectionStatus.CONNECTED⟩).result
      = Except.error KitErr.typeError ∧
    (getPublicKey ⟨some adapterNoAccounts, ConnectionStatus.CONNECTED⟩).result
      ≠ Except.error KitErr.noActiveAccount ∧
    (getPublicKey ⟨some adapterA, ConnectionStatus.CONNECTED⟩).result
      = Except.ok [1, 2, 3] := by
  obtain ⟨h1, h2⟩ :=
    getPublicKey_no_account_guard
      ⟨some adapterNoAccounts, ConnectionStatus.CONNECTED⟩ adapterNoAccounts rfl rfl
  obtain ⟨h3, _⟩ :=
    getPublicKey_no_account_guard
      ⟨some adapterA, ConnectionStatus.CONNECTED⟩ adapterA rfl rfl
  refine ⟨?_, h2, ?_⟩
  · simpa [adapterNoAccounts, adapterA] using h1
  · simpa [adapterA, sampleAccount] using h3

/-- `connect` preserves the session invariant (adapter present iff status is
not `DISCONNECTED`). -/
theorem connect_preserves_inv (s : Session) (adapterOpt : Option IWalletAdapter)
    (h : s.walletAdapter.isSome = true ↔ s.status ≠ ConnectionStatus.DISCONNECTED) :
    (connect s adapterOpt).session.walletAdapter.isSome = true ↔
      (connect s adapterOpt).session.status ≠ ConnectionStatus.DISCONNECTED := by
  cases adapterOpt with
  | none => simpa [connect] using h
  | some a => cases hc : a.connectResult <;> simp [connect, hc]

/-- `disconnect` preserves the session invariant. -/
theorem disconnect_preserves_inv (s : Session)
    (h : s.walletAdapter.isSome = true ↔ s.status ≠ ConnectionStatus.DISCONNECTED) :
    (disconnect s).session.walletAdapter.isSome = true ↔
      (disconnect s).session.status ≠ ConnectionStatus.DISCONNECTED := by
  rcases s with ⟨wa, st⟩
  cases wa with
  | none => cases st <;> simp_all [disconnect]
  | some a =>
    cases st with
    | CONNECTED =>
      by_cases hf : a.hasFeature FeatureName.STANDARD__DISCONNECT
      · cases hd : a.disconnectResult <;> simp [disconnect, hf, hd]
      · simp [disconnect, hf]
    | DISCONNECTED => simp_all [disconnect]
    | CONNECTING => simp_all [disconnect]

/-- The name-resolution half of `select` preserves the session invariant. -/
theorem selectResolve_preserves_inv (avail : List IWallet) (s : Session)
    (walletName : String) (priorCalls : List AdapterCall)
    (h : s.walletAdapter.isSome = true ↔ s.status ≠ ConnectionStatus.DISCONNECTED) :
    (selectResolve avail s walletName priorCalls).session.walletAdapter.isSome = true ↔
      (selectResolve avail s walletName priorCalls).session.status
        ≠ ConnectionStatus.DISCONNECTED := by
  cases hfind : avail.find? (fun wallet => wallet.name == walletName) with
  | none => simpa [selectResolve, hfind] using h
  | some w =>
    have hc := connect_preserves_inv s w.adapter h
    simpa [selectResolve, hfind] using hc

/-- `select` preserves the session invariant. -/
theorem select_preserves_inv (avail : List IWallet) (s : Session) (walletName : String)
    (h : s.walletAdapter.isSome = true ↔ s.status ≠ ConnectionStatus.DISCONNECTED) :
    (select avail s walletName).session.walletAdapter.isSome = true ↔
      (select avail s walletName).session.status ≠ ConnectionStatus.DISCONNECTED := by
  rcases s with ⟨wa, st⟩
  cases wa with
  | none =>
    cases st <;> exact selectResolve_preserves_inv avail _ walletName [] h
  | some a =>
    cases st with
    | DISCONNECTED => exact selectResolve_preserves_inv avail _ walletName [] h
    | CONNECTING => exact selectResolve_preserves_inv avail _ walletName [] h
    | CONNECTED =>
      by_cases hn : (walletName == a.name) = true
      · simp [select, hn]
      · have hn' : (walletName == a.name) = false := by simpa using hn
        by_cases hf : a.hasFeature FeatureName.STANDARD__DISCONNECT
        · cases hd : a.disconnectResult with
          | ok u =>
            have hres := selectResolve_preserves_inv avail
              ⟨none, ConnectionStatus.DISCONNECTED⟩ walletName
              [AdapterCall.disconnectCall a.name] (by simp)
            simpa [select, hn', disconnect, hf, hd] using hres
          | error e => simp [select, hn', disconnect, hf, hd]
        · have hres := selectResolve_preserves_inv avail
            ⟨none, ConnectionStatus.DISCONNECTED⟩ walletName [] (by simp)
          simpa [select, hn', disconnect, hf] using hres

/-- C4: in every session state reachable from the initial state via
`connect`, `disconnect` and `select`, the adapter is present if and only if
the status is not `DISCONNECTED`. -/
theorem reachable_adapter_iff_not_disconnected (s : Session) (h : Reachable s) :
    s.walletAdapter.isSome = true ↔ s.status ≠ ConnectionStatus.DISCONNECTED := by
  induction h with
  | init => simp [initialSession]
  | connectStep adapterOpt _ ih => exact connect_preserves_inv _ adapterOpt ih
  | disconnectStep _ ih => exact disconnect_preserves_inv _ ih
  | selectStep avail walletName _ ih => exact select_preserves_inv avail _ walletName ih

/-- Witness for C4: the invariant holds at the reachable state produced by a
successful `connect` of `adapterA` from the initial state. -/
theorem reachable_adapter_iff_not_disconnected_witness :
    (connect initialSession (some adapterA)).session.walletAdapter.isSome = true ↔
      (connect initialSession (some adapterA)).session.status
        ≠ ConnectionStatus.DISCONNECTED :=
  reachable_adapter_iff_not_disconnected _
    (Reachable.connectStep (some adapterA) Reachable.init)

/-- The source's `configuredWallets` memo (with its empty-input special
cases) computes exactly the spec-side merge. -/
theorem configuredWallets_eq_spec (defaultWallets : List IDefaultWallet)
    (availableWalletAdapters : List IWalletAdapter) :
    configuredWallets defaultWallets availableWalletAdapters =
      configuredWalletsSpec defaultWallets availableWalletAdapters := by
  cases defaultWallets with
  | nil => simp [configuredWallets, configuredWalletsSpec, isNonEmptyArray]
  | cons d ds =>
    cases availableWalletAdapters with
    | nil => simp [configuredWallets, configuredWalletsSpec, isNonEmptyArray]
    | cons a as => simp [configuredWallets, configuredWalletsSpec, isNonEmptyArray]

/-- The source's `detectedWallets` memo computes exactly the spec-side
leftover-normalization. -/
theorem detectedWallets_eq_spec (defaultWallets : List IDefaultWallet)
    (availableWalletAdapters : List IWalletAdapter) :
    detectedWallets defaultWallets availableWalletAdapters =
      detectedWalletsSpec defaultWallets availableWalletAdapters := by
  cases availableWalletAdapters with
  | nil => simp [detectedWallets, detectedWalletsSpec, isNonEmptyArray]
  | cons a as => simp [detectedWallets, detectedWalletsSpec, isNonEmptyArray]

/-- C5: for every configured and detected list, `allAvailableWallets` equals
the spec-side description (configured-order merge first, then leftover
detected adapters, filtered to installed entries), and it never contains a
descriptor with `installed = false`. -/
theorem allAvailableWallets_matches_spec (defaultWallets : List IDefaultWallet)
    (availableWalletAdapters : List IWalletAdapter) :
    allAvailableWallets defaultWallets availableWalletAdapters =
      allAvailableWalletsSpec defaultWallets availableWalletAdapters ∧
    ((allAvailableWallets defaultWallets availableWalletAdapters).all
      fun wallet => wallet.installed) = true := by
  constructor
  · simp [allAvailableWallets, allAvailableWalletsSpec,
      configuredWallets_eq_spec, detectedWallets_eq_spec]
  · rw [List.all_eq_true]
    intro w hw
    exact (List.mem_filter.mp hw).2

/-- Counterexample to C9 as stated: quantifying over every callable session,
the "raises WalletNotAvailable" conclusion fails when the current adapter's
own disconnect call rejects — `select "B"` from a session connected to
`adapterFailingDisconnect` (disconnect rejects with reason `7`) propagates
that rejection, and the `WalletNotAvailable` throw is never reached (the
session is still reset by the disconnect's cleanup). -/
theorem select_disconnect_rejection_counterexample :
    (select [] ⟨some adapterFailingDisconnect, ConnectionStatus.CONNECTED⟩ "B").result
      = Except.error (KitErr.adapterError 7) ∧
    (select [] ⟨some adapterFailingDisconnect, ConnectionStatus.CONNECTED⟩ "B").result
      ≠ Except.error (KitErr.walletNotAvailable "B" []) ∧
    (select [] ⟨some adapterFailingDisconnect, ConnectionStatus.CONNECTED⟩ "B").session
      = ⟨none, ConnectionStatus.DISCONNECTED⟩ := by
  refine ⟨rfl, ?_, rfl⟩
  intro h
  have h' : (Except.error (KitErr.adapterError 7) : Except KitErr Unit)
      = Except.error (KitErr.walletNotAvailable "B" []) := h
  simp at h'

/-- C9 amended: `select` is not atomic on failure: from a callable session
whose current adapter has a different name and whose disconnect path succeeds
(the adapter lacks the optional disconnect feature or its disconnect call
resolves), selecting a name absent from the available list first disconnects
the current adapter and only then raises `WalletNotAvailable`, leaving the
session `DISCONNECTED` with no adapter rather than still connected. -/
theorem select_disconnects_before_notAvailable (avail : List IWallet) (s : Session)
    (a : IWalletAdapter) (walletName : String)
    (hA : s.walletAdapter = some a) (hS : s.status = ConnectionStatus.CONNECTED)
    (hne : walletName ≠ a.name)
    (hfind : avail.find? (fun wallet => wallet.name == walletName) = none)
    (hdis : a.hasFeature FeatureName.STANDARD__DISCONNECT = true →
      a.disconnectResult = Except.ok ()) :
    (select avail s walletName).result
      = Except.error (KitErr.walletNotAvailable walletName
          (avail.map fun wallet => wallet.name)) ∧
    (select avail s walletName).session = ⟨none, ConnectionStatus.DISCONNECTED⟩ ∧
    (select avail s walletName).calls
      = (if a.hasFeature FeatureName.STANDARD__DISCONNECT then
          [AdapterCall.disconnectCall a.name] else []) := by
  rcases s with ⟨wa, st⟩
  cases hA
  cases hS
  have hb : (walletName == a.name) = false := beq_eq_false_iff_ne.mpr hne
  by_cases hf : a.hasFeature FeatureName.STANDARD__DISCONNECT
  · have hd := hdis hf
    simp [select, selectResolve, disconnect, hb, hf, hd, hfind]
  · simp [select, selectResolve, disconnect, hb, hf, hfind]

/-- Witness for C9: connected to `adapterA` ("A"), selecting "B" with an
empty available list makes the disconnect call on "A", resets the session,
and then fails with `WalletNotAvailable`. -/
theorem select_disconnects_before_notAvailable_witness :
    (select [] ⟨some adapterA, ConnectionStatus.CONNECTED⟩ "B").result
      = Except.error (KitErr.walletNotAvailable "B" []) ∧
    (select [] ⟨some adapterA, ConnectionStatus.CONNECTED⟩ "B").session
      = ⟨none, ConnectionStatus.DISCONNECTED⟩ ∧
    (select [] ⟨some adapterA, ConnectionStatus.CONNECTED⟩ "B").calls
      = [AdapterCall.disconnectCall "A"] := by
  obtain ⟨h1, h2, h3⟩ :=
    select_disconnects_before_notAvailable []
      ⟨some adapterA, ConnectionStatus.CONNECTED⟩ adapterA "B"
      rfl rfl (by decide) rfl (fun _ => rfl)
  refine ⟨by simpa using h1, h2, ?_⟩
  simpa [adapterA] using h3

/-- Counterexample to C7 as stated: "unknown" does not occur in the (empty)
available list, yet `select "unknown"` from a session still connected to an
adapter named "unknown" (which detection no longer reports) returns
successfully instead of failing with `WalletNotAvailable` — the idempotent
re-selection check fires before name resolution. -/
theorem select_absent_name_counterexample :
    (select [] ⟨some phantomAdapter, ConnectionStatus.CONNECTED⟩ "unknown").result
      = Except.ok () ∧
    (select [] ⟨some phantomAdapter, ConnectionStatus.CONNECTED⟩ "unknown").result
      ≠ Except.error (KitErr.walletNotAvailable "unknown" []) :=
  ⟨rfl, fun h => Except.noConfusion h⟩

/-- C7 amended: for every session that is not already connected to an adapter
bearing the requested name (and whose current adapter's disconnect call, when
one is required, succeeds), `select` with a name absent from
`allAvailableWallets` fails with `WalletNotAvailable` carrying the requested
name and the exact list of available wallet names, and no connect call is
made into any adapter. -/
theorem select_absent_name_fails (avail : List IWallet) (s : Session)
    (walletName : String)
    (hfind : avail.find? (fun wallet => wallet.name == walletName) = none)
    (hcur : ∀ a, s.walletAdapter = some a → s.status = ConnectionStatus.CONNECTED →
      walletName ≠ a.name ∧
      (a.hasFeature FeatureName.STANDARD__DISCONNECT = true →
        a.disconnectResult = Except.ok ())) :
    (select avail s walletName).result
      = Except.error (KitErr.walletNotAvailable walletName
          (avail.map fun wallet => wallet.name)) ∧
    ((select avail s walletName).calls.all fun c => !c.isConnect) = true := by
  rcases s with ⟨wa, st⟩
  cases wa with
  | none => cases st <;> simp [select, selectResolve, hfind]
  | some a =>
    cases st with
    | DISCONNECTED => simp [select, selectResolve, hfind]
    | CONNECTING => simp [select, selectResolve, hfind]
    | CONNECTED =>
      obtain ⟨hne, hdis⟩ := hcur a rfl rfl
      have hb : (walletName == a.name) = false := beq_eq_false_iff_ne.mpr hne
      by_cases hf : a.hasFeature FeatureName.STANDARD__DISCONNECT
      · have hd := hdis hf
        simp [select, selectResolve, disconnect, hb, hf, hd, hfind,
          AdapterCall.isConnect]
      · simp [select, selectResolve, disconnect, hb, hf, hfind,
          AdapterCall.isConnect]

/-- Witness for the amended C7: with wallets "A" (installed) and "B" (not
installed) configured and only "A" detected, selecting "unknown" while
connected to "A" fails with `WalletNotAvailable` carrying "unknown" and the
available-name list `["A"]`, with no connect call. -/
theorem select_absent_name_fails_witness :
    (select (allAvailableWallets [dwA, dwB] [adapterA])
        ⟨some adapterA, ConnectionStatus.CONNECTED⟩ "unknown").result
      = Except.error (KitErr.walletNotAvailable "unknown" ["A"]) ∧
    ((select (allAvailableWallets [dwA, dwB] [adapterA])
        ⟨some adapterA, ConnectionStatus.CONNECTED⟩ "unknown").calls.all
      fun c => !c.isConnect) = true := by
  obtain ⟨h1, h2⟩ :=
    select_absent_name_fails (allAvailableWallets [dwA, dwB] [adapterA])
      ⟨some adapterA, ConnectionStatus.CONNECTED⟩ "unknown"
      rfl
      (fun a h _ => by
        cases h
        exact ⟨by decide, fun _ => rfl⟩)
  have hnames : (allAvailableWallets [dwA, dwB] [adapterA]).map
      (fun wallet => wallet.name) = ["A"] := rfl
  rw [hnames] at h1
  exact ⟨h1, h2⟩

end WalletKit
